import Mathlib

/-!
Verification of the flag-resolution core of `lsd` (the files
`src/flags/symlinks.rs` and `src/flags/total_size.rs`).

The embedding mirrors the Rust source: the `Yaml` enum of the
`yaml_rust` crate (restricted to string keys for hash lookup, the only
form this core ever indexes with), the `Config` structure holding an
optional loaded document, the two flag value types `NoSymlink` and
`TotalSize`, and their `from_arg_matches` / `from_config` extraction
functions.  The warning emitted by `Config::print_wrong_type_warning`
is made explicit: `from_config` returns the option paired with the
list of warnings the call emits.
-/

namespace Lsd

/-- The `yaml_rust::Yaml` enum, as consumed by this core.  Hash entries
are keyed by strings, matching the only indexing the source performs
(`yaml["no-symlink"]`, `yaml["total-size"]`, i.e. `Index<&str>`).  The
`Alias` variant is named `aliasNode` here. -/
inductive Yaml where
  | real (s : String)
  | integer (i : Int)
  | string (s : String)
  | boolean (b : Bool)
  | array (xs : List Yaml)
  | hash (entries : List (String × Yaml))
  | aliasNode (n : Nat)
  | null
  | badValue
deriving Repr

/-- Association-list lookup used by `Yaml.index`, mirroring
`LinkedHashMap::get` on string keys. -/
def lookupEntry : List (String × Yaml) → String → Option Yaml
  | [], _ => none
  | (k, v) :: rest, key => if k = key then some v else lookupEntry rest key

/-- The `Index<&str>` implementation of `yaml_rust::Yaml`: indexing a
hash returns the stored value or `BadValue` when the key is missing;
indexing any non-hash value returns `BadValue`. -/
def Yaml.index (y : Yaml) (key : String) : Yaml :=
  match y with
  | .hash entries =>
      match lookupEntry entries key with
      | some v => v
      | none => .badValue
  | _ => .badValue

/-- A warning emitted by `Config::print_wrong_type_warning`, carrying
the config key name and the expected type name. -/
structure Warning where
  key : String
  expected : String
deriving DecidableEq, Repr

/-- The `Config` structure: an optionally loaded YAML document. -/
structure Config where
  yaml : Option Yaml

/-- The parsed command line (`clap::ArgMatches`), opaque to this core
except for presence queries by flag name. -/
structure ArgMatches where
  present : List String
deriving DecidableEq

/-- `ArgMatches::is_present`: whether the named switch was supplied. -/
def ArgMatches.isPresent (m : ArgMatches) (name : String) : Bool :=
  m.present.contains name

/-- The flag showing whether to follow symbolic links
(`struct NoSymlink(pub bool)`). -/
structure NoSymlink where
  val : Bool
deriving DecidableEq, Repr, Inhabited

/-- `Default` for `NoSymlink`: the derived default wraps `false`. -/
def NoSymlink.default : NoSymlink := ⟨false⟩

/-- `NoSymlink::from_arg_matches`: `Some(NoSymlink(true))` when the
"no-symlink" switch is present, `None` otherwise. -/
def NoSymlink.from_arg_matches (m : ArgMatches) : Option NoSymlink :=
  if m.isPresent "no-symlink" then some ⟨true⟩ else none

/-- `NoSymlink::from_config`, with the warning side effect made
explicit as the second component: no document or `BadValue` at the
key yields `None` with no warning; a boolean yields `Some` wrapping
it; any other value yields `None` and one wrong-type warning naming
"no-symlink" and "boolean". -/
def NoSymlink.from_config (config : Config) : Option NoSymlink × List Warning :=
  match config.yaml with
  | some yaml =>
      match yaml.index "no-symlink" with
      | .badValue => (none, [])
      | .boolean value => (some ⟨value⟩, [])
      | _ => (none, [⟨"no-symlink", "boolean"⟩])
  | none => (none, [])

/-- The flag showing whether to show the total size for directories
(`struct TotalSize(pub bool)`). -/
structure TotalSize where
  val : Bool
deriving DecidableEq, Repr, Inhabited

/-- `Default` for `TotalSize`: the derived default wraps `false`. -/
def TotalSize.default : TotalSize := ⟨false⟩

/-- `TotalSize::from_arg_matches`: `Some(TotalSize(true))` when the
"total-size" switch is present, `None` otherwise. -/
def TotalSize.from_arg_matches (m : ArgMatches) : Option TotalSize :=
  if m.isPresent "total-size" then some ⟨true⟩ else none

/-- `TotalSize::from_config`, with the warning side effect made
explicit as the second component. -/
def TotalSize.from_config (config : Config) : Option TotalSize × List Warning :=
  match config.yaml with
  | some yaml =>
      match yaml.index "total-size" with
      | .badValue => (none, [])
      | .boolean value => (some ⟨value⟩, [])
      | _ => (none, [⟨"total-size", "boolean"⟩])
  | none => (none, [])

/-- Modelled from the spec: the resolution orchestrator
`Configurable::configure_from` is declared in `src/flags/mod.rs`,
which is not part of the provided sources.  Per the spec it tries
`from_arguments`; if `None`, tries `from_config`; if still `None`,
uses `default()`. -/
def NoSymlink.configure_from (m : ArgMatches) (config : Config) : NoSymlink :=
  match NoSymlink.from_arg_matches m with
  | some value => value
  | none =>
      match (NoSymlink.from_config config).1 with
      | some value => value
      | none => NoSymlink.default

/-- Modelled from the spec: the resolution orchestrator
`Configurable::configure_from` for `TotalSize` (see
`NoSymlink.configure_from`). -/
def TotalSize.configure_from (m : ArgMatches) (config : Config) : TotalSize :=
  match TotalSize.from_arg_matches m with
  | some value => value
  | none =>
      match (TotalSize.from_config config).1 with
      | some value => value
      | none => TotalSize.default

/-- Two sequential calls of `NoSymlink::from_config` on the same
config: the pair of results together with the accumulated warning
log of both calls. -/
def NoSymlink.fromConfigTwice (config : Config) :
    (Option NoSymlink × Option NoSymlink) × List Warning :=
  let r1 := NoSymlink.from_config config
  let r2 := NoSymlink.from_config config
  ((r1.1, r2.1), r1.2 ++ r2.2)

/-- Two sequential calls of `TotalSize::from_config` on the same
config: the pair of results together with the accumulated warning
log of both calls. -/
def TotalSize.fromConfigTwice (config : Config) :
    (Option TotalSize × Option TotalSize) × List Warning :=
  let r1 := TotalSize.from_config config
  let r2 := TotalSize.from_config config
  ((r1.1, r2.1), r1.2 ++ r2.2)

end Lsd

namespace Lsd

/-- C1: if the flag's CLI switch is present in the arguments, the
resolved value equals the CLI-implied value (the wrapper around
`true`), regardless of the config document's contents; each flag's
hypothesis concerns only that flag's own switch. -/
theorem cli_overrides_config (m : ArgMatches) (config : Config) :
    (m.isPresent "no-symlink" = true →
      NoSymlink.configure_from m config = ⟨true⟩) ∧
    (m.isPresent "total-size" = true →
      TotalSize.configure_from m config = ⟨true⟩) := by
  constructor
  · intro hns
    simp [NoSymlink.configure_from, NoSymlink.from_arg_matches, hns]
  · intro hts
    simp [TotalSize.configure_from, TotalSize.from_arg_matches, hts]

/-- C1 witness: the command line `["lsd", "--no-symlink"]` alone makes
`NoSymlink` resolve to `true` even against a contradicting config,
and symmetrically `["lsd", "--total-size"]` for `TotalSize`. -/
theorem cli_overrides_config_witness :
    NoSymlink.configure_from ⟨["no-symlink"]⟩
      ⟨some (.hash [("no-symlink", .boolean false), ("total-size", .boolean false)])⟩ = ⟨true⟩ ∧
    TotalSize.configure_from ⟨["total-size"]⟩
      ⟨some (.hash [("no-symlink", .boolean false), ("total-size", .boolean false)])⟩ = ⟨true⟩ :=
  ⟨(cli_overrides_config ⟨["no-symlink"]⟩
      ⟨some (.hash [("no-symlink", .boolean false), ("total-size", .boolean false)])⟩).1
      (by decide),
   (cli_overrides_config ⟨["total-size"]⟩
      ⟨some (.hash [("no-symlink", .boolean false), ("total-size", .boolean false)])⟩).2
      (by decide)⟩

/-- C2: resolution is total — for every parsed-arguments value and
every config, `configure_from` returns exactly one wrapped boolean,
never an absence or a failure. -/
theorem resolution_total (m : ArgMatches) (config : Config) :
    (∃ b : Bool, NoSymlink.configure_from m config = ⟨b⟩) ∧
    (∃ b : Bool, TotalSize.configure_from m config = ⟨b⟩) :=
  ⟨⟨(NoSymlink.configure_from m config).val, rfl⟩,
   ⟨(TotalSize.configure_from m config).val, rfl⟩⟩

/-- C3: if a flag's CLI switch is absent and the config document is
absent or indexes that flag's key to the `BadValue` absence sentinel,
that flag resolves to the compiled-in default, which wraps `false`;
each flag's hypotheses concern only its own switch and key. -/
theorem fallback_to_default (m : ArgMatches) (config : Config) :
    (m.isPresent "no-symlink" = false →
      (config.yaml = none ∨
        ∃ y, config.yaml = some y ∧ y.index "no-symlink" = Yaml.badValue) →
      NoSymlink.configure_from m config = NoSymlink.default) ∧
    (m.isPresent "total-size" = false →
      (config.yaml = none ∨
        ∃ y, config.yaml = some y ∧ y.index "total-size" = Yaml.badValue) →
      TotalSize.configure_from m config = TotalSize.default) ∧
    NoSymlink.default = ⟨false⟩ ∧ TotalSize.default = ⟨false⟩ := by
  refine ⟨?_, ?_, rfl, rfl⟩
  · intro hns hcns
    rcases hcns with h | ⟨y, hy, hidx⟩
    · simp [NoSymlink.configure_from, NoSymlink.from_arg_matches, hns,
        NoSymlink.from_config, h]
    · simp [NoSymlink.configure_from, NoSymlink.from_arg_matches, hns,
        NoSymlink.from_config, hy, hidx]
  · intro hts hcts
    rcases hcts with h | ⟨y, hy, hidx⟩
    · simp [TotalSize.configure_from, TotalSize.from_arg_matches, hts,
        TotalSize.from_config, h]
    · simp [TotalSize.configure_from, TotalSize.from_arg_matches, hts,
        TotalSize.from_config, hy, hidx]

/-- C3 witness: with a bare command line, `NoSymlink` resolves to its
default even while the config document sets `total-size: true`, and
`TotalSize` resolves to its default when no document is loaded. -/
theorem fallback_to_default_witness :
    NoSymlink.configure_from ⟨[]⟩
      ⟨some (.hash [("total-size", .boolean true)])⟩ = NoSymlink.default ∧
    TotalSize.configure_from ⟨[]⟩ ⟨none⟩ = TotalSize.default :=
  ⟨(fallback_to_default ⟨[]⟩ ⟨some (.hash [("total-size", .boolean true)])⟩).1
      (by decide)
      (Or.inr ⟨.hash [("total-size", .boolean true)], rfl,
        by simp [Yaml.index, lookupEntry]⟩),
   (fallback_to_default ⟨[]⟩ ⟨none⟩).2.1 (by decide) (Or.inl rfl)⟩

/-- C4: a loaded document whose flag key holds a value that is neither
a boolean nor the absence sentinel makes `from_config` return `None`
together with exactly one warning naming the key and "boolean"; it
never yields `Some` for such a value. -/
theorem wrong_type_warns (config : Config) (y : Yaml)
    (hy : config.yaml = some y) :
    (y.index "no-symlink" ≠ Yaml.badValue →
      (∀ b, y.index "no-symlink" ≠ Yaml.boolean b) →
      NoSymlink.from_config config = (none, [⟨"no-symlink", "boolean"⟩])) ∧
    (y.index "total-size" ≠ Yaml.badValue →
      (∀ b, y.index "total-size" ≠ Yaml.boolean b) →
      TotalSize.from_config config = (none, [⟨"total-size", "boolean"⟩])) := by
  constructor
  · intro hbad hbool
    cases h : y.index "no-symlink" <;>
      first
        | exact absurd h hbad
        | exact absurd h (hbool _)
        | simp [NoSymlink.from_config, hy, h]
  · intro hbad hbool
    cases h : y.index "total-size" <;>
      first
        | exact absurd h hbad
        | exact absurd h (hbool _)
        | simp [TotalSize.from_config, hy, h]

/-- C4 witness: a document holding strings at both keys makes each
`from_config` return `None` with exactly the one wrong-type warning. -/
theorem wrong_type_warns_witness :
    NoSymlink.from_config
      ⟨some (.hash [("no-symlink", .string "yes"), ("total-size", .string "yes")])⟩ =
      (none, [⟨"no-symlink", "boolean"⟩]) ∧
    TotalSize.from_config
      ⟨some (.hash [("no-symlink", .string "yes"), ("total-size", .string "yes")])⟩ =
      (none, [⟨"total-size", "boolean"⟩]) := by
  have h := wrong_type_warns
    ⟨some (.hash [("no-symlink", .string "yes"), ("total-size", .string "yes")])⟩
    (.hash [("no-symlink", .string "yes"), ("total-size", .string "yes")]) rfl
  refine ⟨h.1 ?_ ?_, h.2 ?_ ?_⟩
  · intro hcontra
    simp [Yaml.index, lookupEntry] at hcontra
  · intro b hcontra
    simp [Yaml.index, lookupEntry] at hcontra
  · intro hcontra
    simp [Yaml.index, lookupEntry] at hcontra
  · intro b hcontra
    simp [Yaml.index, lookupEntry] at hcontra

/-- C5: `from_arg_matches` returns `Some` of the flag wrapping `true`
exactly when the flag's switch is present, returns `None` when it is
absent, and never returns `Some` of the flag wrapping `false`. -/
theorem arg_matches_presence (m : ArgMatches) :
    (NoSymlink.from_arg_matches m = some ⟨true⟩ ↔
      m.isPresent "no-symlink" = true) ∧
    (m.isPresent "no-symlink" = false →
      NoSymlink.from_arg_matches m = none) ∧
    NoSymlink.from_arg_matches m ≠ some ⟨false⟩ ∧
    (TotalSize.from_arg_matches m = some ⟨true⟩ ↔
      m.isPresent "total-size" = true) ∧
    (m.isPresent "total-size" = false →
      TotalSize.from_arg_matches m = none) ∧
    TotalSize.from_arg_matches m ≠ some ⟨false⟩ := by
  cases hns : m.isPresent "no-symlink" <;>
    cases hts : m.isPresent "total-size" <;>
      simp [NoSymlink.from_arg_matches, TotalSize.from_arg_matches, hns, hts]

/-- C5 witness: evaluated on a command line carrying both switches. -/
theorem arg_matches_presence_witness :
    (NoSymlink.from_arg_matches ⟨["no-symlink", "total-size"]⟩ = some ⟨true⟩ ↔
      ArgMatches.isPresent ⟨["no-symlink", "total-size"]⟩ "no-symlink" = true) ∧
    (ArgMatches.isPresent ⟨["no-symlink", "total-size"]⟩ "no-symlink" = false →
      NoSymlink.from_arg_matches ⟨["no-symlink", "total-size"]⟩ = none) ∧
    NoSymlink.from_arg_matches ⟨["no-symlink", "total-size"]⟩ ≠ some ⟨false⟩ ∧
    (TotalSize.from_arg_matches ⟨["no-symlink", "total-size"]⟩ = some ⟨true⟩ ↔
      ArgMatches.isPresent ⟨["no-symlink", "total-size"]⟩ "total-size" = true) ∧
    (ArgMatches.isPresent ⟨["no-symlink", "total-size"]⟩ "total-size" = false →
      TotalSize.from_arg_matches ⟨["no-symlink", "total-size"]⟩ = none) ∧
    TotalSize.from_arg_matches ⟨["no-symlink", "total-size"]⟩ ≠ some ⟨false⟩ :=
  arg_matches_presence ⟨["no-symlink", "total-size"]⟩

/-- C6: a loaded document whose flag key holds a boolean makes
`from_config` return `Some` of the flag wrapping exactly that
boolean, with no warning emitted. -/
theorem config_boolean_propagates (config : Config) (y : Yaml) (b b' : Bool)
    (hy : config.yaml = some y) :
    (y.index "no-symlink" = Yaml.boolean b →
      NoSymlink.from_config config = (some ⟨b⟩, [])) ∧
    (y.index "total-size" = Yaml.boolean b' →
      TotalSize.from_config config = (some ⟨b'⟩, [])) := by
  constructor
  · intro hb
    simp [NoSymlink.from_config, hy, hb]
  · intro hb
    simp [TotalSize.from_config, hy, hb]

/-- C6 witness: a document with `no-symlink: true` and
`total-size: false` propagates both booleans without warnings. -/
theorem config_boolean_propagates_witness :
    NoSymlink.from_config
      ⟨some (.hash [("no-symlink", .boolean true), ("total-size", .boolean false)])⟩ =
      (some ⟨true⟩, []) ∧
    TotalSize.from_config
      ⟨some (.hash [("no-symlink", .boolean true), ("total-size", .boolean false)])⟩ =
      (some ⟨false⟩, []) := by
  have h := config_boolean_propagates
    ⟨some (.hash [("no-symlink", .boolean true), ("total-size", .boolean false)])⟩
    (.hash [("no-symlink", .boolean true), ("total-size", .boolean false)])
    true false rfl
  exact ⟨h.1 (by simp [Yaml.index, lookupEntry]), h.2 (by simp [Yaml.index, lookupEntry])⟩

/-- C7: when no document is loaded, `from_config` returns `None` and
emits no warning. -/
theorem no_document_silent_none (config : Config)
    (h : config.yaml = none) :
    NoSymlink.from_config config = (none, []) ∧
    TotalSize.from_config config = (none, []) := by
  constructor
  · simp [NoSymlink.from_config, h]
  · simp [TotalSize.from_config, h]

/-- C7 witness: the config with no document. -/
theorem no_document_silent_none_witness :
    NoSymlink.from_config ⟨none⟩ = (none, []) ∧
    TotalSize.from_config ⟨none⟩ = (none, []) :=
  no_document_silent_none ⟨none⟩ rfl

/-- C8: `from_config` is deterministic and repeatable — two calls on
the same config return the same result, and the warning log of the
two calls is each call's own log emitted independently twice. -/
theorem from_config_repeatable (config : Config) :
    (NoSymlink.fromConfigTwice config).1.1 = (NoSymlink.fromConfigTwice config).1.2 ∧
    (NoSymlink.fromConfigTwice config).2 =
      (NoSymlink.from_config config).2 ++ (NoSymlink.from_config config).2 ∧
    (TotalSize.fromConfigTwice config).1.1 = (TotalSize.fromConfigTwice config).1.2 ∧
    (TotalSize.fromConfigTwice config).2 =
      (TotalSize.from_config config).2 ++ (TotalSize.from_config config).2 :=
  ⟨rfl, rfl, rfl, rfl⟩

/-- C9: two flag values of the same flag type are equal exactly when
their inner booleans are equal, both for propositional equality and
for the derived boolean equality test. -/
theorem flag_value_equality (a b : NoSymlink) (c d : TotalSize) :
    (a = b ↔ a.val = b.val) ∧ ((a == b) = true ↔ a.val = b.val) ∧
    (c = d ↔ c.val = d.val) ∧ ((c == d) = true ↔ c.val = d.val) := by
  cases a; cases b; cases c; cases d
  simp [beq_iff_eq]

/-- C10: an explicit null at the flag's key is not the absence
sentinel: `from_config` takes the type-mismatch path, returning
`None` and emitting the wrong-type warning. -/
theorem null_is_wrong_type (config : Config) (y : Yaml)
    (hy : config.yaml = some y) :
    (y.index "no-symlink" = Yaml.null →
      NoSymlink.from_config config = (none, [⟨"no-symlink", "boolean"⟩])) ∧
    (y.index "total-size" = Yaml.null →
      TotalSize.from_config config = (none, [⟨"total-size", "boolean"⟩])) := by
  constructor
  · intro hb
    simp [NoSymlink.from_config, hy, hb]
  · intro hb
    simp [TotalSize.from_config, hy, hb]

/-- C10 witness: a document whose both keys carry explicit nulls makes
each `from_config` warn and return `None`. -/
theorem null_is_wrong_type_witness :
    NoSymlink.from_config
      ⟨some (.hash [("no-symlink", .null), ("total-size", .null)])⟩ =
      (none, [⟨"no-symlink", "boolean"⟩]) ∧
    TotalSize.from_config
      ⟨some (.hash [("no-symlink", .null), ("total-size", .null)])⟩ =
      (none, [⟨"total-size", "boolean"⟩]) := by
  have h := null_is_wrong_type
    ⟨some (.hash [("no-symlink", .null), ("total-size", .null)])⟩
    (.hash [("no-symlink", .null), ("total-size", .null)]) rfl
  exact ⟨h.1 (by simp [Yaml.index, lookupEntry]), h.2 (by simp [Yaml.index, lookupEntry])⟩

end Lsd
